import Mathlib

/-!
Verification of the authentication/session core of the Crypto Trading
Signals Platform backend: a shallow embedding of
`backend/services/authService.js`, the `User` mongoose model,
`backend/controllers/authController.js` and
`backend/middlewares/authenticate.js`, together with theorems settling the
spec's claims about the token lifecycle and access-control behaviour.

Modelling conventions:
* A JWT is determined by its payload and the signing secret; distinct
  (payload, secret) pairs produce distinct literal strings, so token values
  are represented by the `Token` type and stores keyed by the literal token
  string (the `refreshTokens` array, the Redis blacklist) are keyed by
  `Token`.  Arbitrary non-JWT inputs are covered by `Token.malformed`.
* Wall-clock time is an explicit `now : Nat` parameter (Unix seconds).
* The mongoose document store is a `List User`; `user.save()` is
  `saveUser`, which replaces the documents carrying the saved user's id.
* Redis is `CacheState`: either available with its entries or unavailable
  (every operation on it throws, which the service code catches).
-/

namespace CryptoSignals

/-- Payload of a signed JWT as assembled by `jwt.sign` in
`authService.js`: the explicit fields `userId`, `email`, `role` (absent on
refresh tokens), `type` (rendered `tokType`), plus the registered claims
`iat`, `exp`, `iss`, `aud` added by the signing options. -/
structure JwtPayload where
  userId : Nat
  email : String
  role : Option String
  tokType : String
  iat : Nat
  exp : Nat
  iss : String
  aud : String
deriving DecidableEq, Repr

/-- A presented credential: either a well-formed JWT signed with some
secret, or a malformed string that fails structural decoding.  Equality of
`Token` values models equality of the literal token strings. -/
inductive Token
  | signed (payload : JwtPayload) (secret : String)
  | malformed (raw : String)
deriving DecidableEq, Repr

/-- Configuration read from the environment by `authService.js`:
the two signing secrets and the two lifetimes (seconds; defaults 15 min
and 7 days). -/
structure Config where
  jwtSecret : String
  jwtRefreshSecret : String
  accessExpiry : Nat
  refreshExpiry : Nat
deriving DecidableEq, Repr

/-- Issuer string fixed in `authService.js`. -/
def ISSUER : String := "crypto-signals-api"

/-- Audience string fixed in `authService.js`. -/
def AUDIENCE : String := "crypto-signals-client"

/-- Modelled from the spec: bcryptjs is an external library (not under
`src/`); hashing is one-way and `bcrypt.compare(candidate, stored)` holds
exactly when `stored` is the hash of `candidate` at the configured work
factor (default 12). -/
def bcryptHash (password : String) : String :=
  "bcrypt-12:" ++ password

/-- A `User` document (`models/User.js`): identifier, profile fields, the
stored secret hash, the role (`"user"` or `"admin"`), the ordered
`refreshTokens` array, the `isActive` flag and the last-login timestamp. -/
structure User where
  id : Nat
  name : String
  email : String
  password : String
  role : String
  refreshTokens : List Token
  isActive : Bool
  lastLogin : Option Nat
deriving DecidableEq, Repr

/-- Instance method `comparePassword` of the `User` schema:
`bcrypt.compare(candidatePassword, this.password)`. -/
def User.comparePassword (user : User) (candidatePassword : String) : Bool :=
  user.password == bcryptHash candidatePassword

/-- Instance method `addRefreshToken`: if the list already holds 5 or more
tokens, `shift()` removes the oldest, then `push(token)` appends the new
one. -/
def User.addRefreshToken (user : User) (token : Token) : User :=
  let ts := if 5 ≤ user.refreshTokens.length
            then user.refreshTokens.drop 1
            else user.refreshTokens
  { user with refreshTokens := ts ++ [token] }

/-- Instance method `removeRefreshToken`: filters out every entry equal to
the given token value. -/
def User.removeRefreshToken (user : User) (token : Token) : User :=
  { user with refreshTokens := user.refreshTokens.filter (fun t => t ≠ token) }

/-- Instance method `removeAllRefreshTokens`: empties the list. -/
def User.removeAllRefreshTokens (user : User) : User :=
  { user with refreshTokens := [] }

/-- `User.findById`: first document whose id matches. -/
def findById (db : List User) (uid : Nat) : Option User :=
  db.find? (fun u => u.id == uid)

/-- `User.findOne({ email })` (as used by `findByCredentials`): first
document whose email matches. -/
def findByEmail (db : List User) (email : String) : Option User :=
  db.find? (fun u => u.email == email)

/-- `user.save()`: writes the document back, replacing the stored
document(s) carrying the same id. -/
def saveUser (db : List User) (user : User) : List User :=
  db.map (fun u => if u.id == user.id then user else u)

/-- The Redis connection: available with its current entries
(blacklist key, remaining TTL), or unavailable (every command throws). -/
inductive CacheState
  | available (entries : List (Token × Nat))
  | unavailable
deriving DecidableEq, Repr

/-- `isTokenBlacklisted` in `authService.js`: membership of
`blacklist:<token>`; the catch block returns `false` when the cache
throws (fail open). -/
def isTokenBlacklisted (token : Token) (cache : CacheState) : Bool :=
  match cache with
  | .available entries => entries.any (fun e => e.1 == token)
  | .unavailable => false

/-- `blacklistToken` in `authService.js`: sets `blacklist:<token>` with
the given TTL and returns `true`; the catch block logs and returns
`false` when the cache throws.  Result: (returned flag, cache after). -/
def blacklistToken (token : Token) (expiresIn : Nat) (cache : CacheState) :
    Bool × CacheState :=
  match cache with
  | .available entries => (true, .available ((token, expiresIn) :: entries))
  | .unavailable => (false, .unavailable)

/-- Failure verdicts of `verifyToken`: the messages
`Token has been revoked`, `Token has expired`, `Invalid token` and
`Invalid token type. Expected .., got ..`. -/
inductive VerifyError
  | revoked
  | expired
  | invalid
  | wrongType (expected got : String)
deriving DecidableEq, Repr

/-- `jwt.verify(token, secret, { issuer, audience })` of the jsonwebtoken
library: malformed structure or signature mismatch throw
`JsonWebTokenError` (surfaced as `Invalid token`); an elapsed `exp` throws
`TokenExpiredError` (surfaced as `Token has expired`); audience and issuer
mismatches throw `JsonWebTokenError`; otherwise the decoded payload is
returned.  The library checks the signature first, then expiry, then
audience, then issuer. -/
def jwtVerify (token : Token) (secret : String) (now : Nat) :
    Except VerifyError JwtPayload :=
  match token with
  | .malformed _ => .error .invalid
  | .signed payload sig =>
    if sig ≠ secret then .error .invalid
    else if payload.exp ≤ now then .error .expired
    else if payload.aud ≠ AUDIENCE then .error .invalid
    else if payload.iss ≠ ISSUER then .error .invalid
    else .ok payload

/-- Secret selected by `verifyToken` for the expected token type:
`type === 'access' ? JWT_SECRET : JWT_REFRESH_SECRET`. -/
def secretFor (tokType : String) (cfg : Config) : String :=
  if tokType == "access" then cfg.jwtSecret else cfg.jwtRefreshSecret

/-- `verifyToken(token, type)` in `authService.js`: the blacklist is
consulted first (fail-open on cache unavailability); then the signature,
expiry, audience and issuer are verified against the secret selected by
the expected type; then the payload's `type` discriminator is compared
with the expected type; on success the decoded payload is returned.  The
function only reads the cache. -/
def verifyToken (token : Token) (tokType : String) (cache : CacheState)
    (cfg : Config) (now : Nat) : Except VerifyError JwtPayload :=
  if isTokenBlacklisted token cache then .error .revoked
  else
    match jwtVerify token (secretFor tokType cfg) now with
    | .error e => .error e
    | .ok decoded =>
      if decoded.tokType ≠ tokType then .error (.wrongType tokType decoded.tokType)
      else .ok decoded

/-- `generateAccessToken`: signs `{userId, email, role, type: 'access'}`
with `JWT_SECRET`, 15-minute default lifetime, fixed issuer/audience. -/
def generateAccessToken (user : User) (cfg : Config) (now : Nat) : Token :=
  .signed { userId := user.id, email := user.email, role := some user.role,
            tokType := "access", iat := now, exp := now + cfg.accessExpiry,
            iss := ISSUER, aud := AUDIENCE } cfg.jwtSecret

/-- `generateRefreshToken`: signs `{userId, email, type: 'refresh'}` with
`JWT_REFRESH_SECRET`, 7-day default lifetime, fixed issuer/audience. -/
def generateRefreshToken (user : User) (cfg : Config) (now : Nat) : Token :=
  .signed { userId := user.id, email := user.email, role := none,
            tokType := "refresh", iat := now, exp := now + cfg.refreshExpiry,
            iss := ISSUER, aud := AUDIENCE } cfg.jwtRefreshSecret

/-- Both tokens of `generateTokenPair`. -/
structure TokenPair where
  accessToken : Token
  refreshToken : Token
deriving DecidableEq, Repr

/-- `generateTokenPair(user)`. -/
def generateTokenPair (user : User) (cfg : Config) (now : Nat) : TokenPair :=
  { accessToken := generateAccessToken user cfg now,
    refreshToken := generateRefreshToken user cfg now }

/-- `getTokenExpiry`: `jwt.decode` (no signature check) and
`max(exp − now, 0)`, defaulting to 900 when the token does not decode. -/
def getTokenExpiry (token : Token) (now : Nat) : Nat :=
  match token with
  | .signed payload _ => payload.exp - now
  | .malformed _ => 900

/-- An HTTP request as seen by the auth code: the possible carriers of the
two credentials, plus `req.user` when the `authenticate` middleware ran
earlier in the chain. -/
structure Request where
  authorizationBearer : Option Token
  cookieAccessToken : Option Token
  cookieRefreshToken : Option Token
  bodyRefreshToken : Option Token
  reqUser : Option User
deriving Repr

/-- `extractToken` in `authService.js`: `Authorization: Bearer` header
first, then the `accessToken` cookie. -/
def extractToken (req : Request) : Option Token :=
  match req.authorizationBearer with
  | some t => some t
  | none => req.cookieAccessToken

/-- `extractRefreshToken` in `authService.js`: the `refreshToken` cookie
first, then the `refreshToken` body field. -/
def extractRefreshToken (req : Request) : Option Token :=
  match req.cookieRefreshToken with
  | some t => some t
  | none => req.bodyRefreshToken

/-- Modelled from the spec: the error classes of `utils/AppError.js` (the
file is not under `src/`; only its users are).  `AuthenticationError` is
the Unauthenticated failure (HTTP 401), `AuthorizationError` the Forbidden
failure (403), `ConflictError` the duplicate-identity failure (409); each
carries its message.  `verify e` is a raw error thrown by `verifyToken`
propagating out of a controller unchanged. -/
inductive AppError
  | authentication (message : String)
  | authorization (message : String)
  | conflict (message : String)
  | verify (e : VerifyError)
deriving DecidableEq, Repr

/-- HTTP status attached to each error class (`error.statusCode`);
Unauthenticated is 401, Forbidden 403, Conflict 409.  A raw
`verifyToken` error reaching the global error handler from a controller
carries no operational status and surfaces as a generic 500. -/
def AppError.statusCode : AppError → Nat
  | .authentication _ => 401
  | .authorization _ => 403
  | .conflict _ => 409
  | .verify _ => 500

/-- Successful result of the `login` controller: the saved user document,
the minted pair, and the database after the two writes. -/
structure LoginOk where
  user : User
  tokens : TokenPair
  db : List User
deriving DecidableEq, Repr

/-- The `login` controller (`authController.js`): look the identity up by
email; reject if absent, inactive, or the password hash mismatches
(throwing `AuthenticationError` with the source's exact messages); on
success mint a pair, append the refresh token (`addRefreshToken` saves),
set `lastLogin` and save again. -/
def login (email password : String) (db : List User) (cfg : Config)
    (now : Nat) : Except AppError LoginOk :=
  match findByEmail db email with
  | none => .error (.authentication "Invalid email or password")
  | some user =>
    if !user.isActive then
      .error (.authentication "Account is deactivated. Please contact support.")
    else if !(user.comparePassword password) then
      .error (.authentication "Invalid email or password")
    else
      let pair := generateTokenPair user cfg now
      let user1 := user.addRefreshToken pair.refreshToken
      let db1 := saveUser db user1
      let user2 := { user1 with lastLogin := some now }
      let db2 := saveUser db1 user2
      .ok { user := user2, tokens := pair, db := db2 }

/-- In-flight state of one refresh request after its reads and checks but
before its writes: the user document it read, the consumed token, and the
freshly minted pair. -/
structure PendingRefresh where
  user : User
  oldToken : Token
  pair : TokenPair
deriving DecidableEq, Repr

/-- Read half of the `refreshAccessToken` controller: extract the token,
verify it as refresh-class, read the user document by the decoded id,
and require the literal token value to be present in the stored
`refreshTokens` list; mint the new pair. -/
def refreshReadPhase (refreshToken? : Option Token) (db : List User)
    (cache : CacheState) (cfg : Config) (now : Nat) :
    Except AppError PendingRefresh :=
  match refreshToken? with
  | none => .error (.authentication "Refresh token is required")
  | some refreshToken =>
    match verifyToken refreshToken "refresh" cache cfg now with
    | .error e => .error (.verify e)
    | .ok decoded =>
      match findById db decoded.userId with
      | none => .error (.authentication "User not found")
      | some user =>
        if !(user.refreshTokens.contains refreshToken) then
          .error (.authentication "Invalid refresh token")
        else
          .ok { user := user, oldToken := refreshToken,
                pair := generateTokenPair user cfg now }

/-- Write half of the `refreshAccessToken` controller:
`removeRefreshToken` (which saves) then `addRefreshToken` (which saves). -/
def refreshWritePhase (p : PendingRefresh) (db : List User) : List User :=
  let user1 := p.user.removeRefreshToken p.oldToken
  let db1 := saveUser db user1
  saveUser db1 (user1.addRefreshToken p.pair.refreshToken)

/-- Successful result of the refresh controller. -/
structure RefreshOk where
  tokens : TokenPair
  db : List User
deriving DecidableEq, Repr

/-- The `refreshAccessToken` controller run to completion: the read phase
followed, on success, by the write phase. -/
def refreshAccessToken (refreshToken? : Option Token) (db : List User)
    (cache : CacheState) (cfg : Config) (now : Nat) :
    Except AppError RefreshOk :=
  match refreshReadPhase refreshToken? db cache cfg now with
  | .error e => .error e
  | .ok p => .ok { tokens := p.pair, db := refreshWritePhase p db }

/-- Response of the `logout` and `logoutAll` controllers together with
the stores they leave behind. -/
structure LogoutOk where
  statusCode : Nat
  message : String
  db : List User
  cache : CacheState
deriving DecidableEq, Repr

/-- The `logout` controller: blacklist the presented access token
(cookie first, then bearer header) with its remaining lifetime as TTL,
ignoring the returned flag; remove the presented refresh token from the
requester's document when both are available; always answer 200
`Logout successful`. -/
def logout (req : Request) (db : List User) (cache : CacheState)
    (now : Nat) : LogoutOk :=
  let accessToken? := match req.cookieAccessToken with
    | some t => some t
    | none => req.authorizationBearer
  let cache1 := match accessToken? with
    | some t => (blacklistToken t (getTokenExpiry t now) cache).2
    | none => cache
  let db1 := match extractRefreshToken req, req.reqUser with
    | some rt, some ru =>
      match findById db ru.id with
      | some user => saveUser db (user.removeRefreshToken rt)
      | none => db
    | _, _ => db
  { statusCode := 200, message := "Logout successful", db := db1, cache := cache1 }

/-- The `logoutAll` controller: re-read the requester's document (the
route's `authenticate` middleware has attached `reqUser`), clear its
whole `refreshTokens` list, then best-effort blacklist the presented
access token; answer 200. -/
def logoutAll (reqUser : User) (req : Request) (db : List User)
    (cache : CacheState) (now : Nat) : Except AppError LogoutOk :=
  match findById db reqUser.id with
  | none => .error (.authentication "User not found")
  | some user =>
    let db1 := saveUser db user.removeAllRefreshTokens
    let accessToken? := match req.cookieAccessToken with
      | some t => some t
      | none => req.authorizationBearer
    let cache1 := match accessToken? with
      | some t => (blacklistToken t (getTokenExpiry t now) cache).2
      | none => cache
    .ok { statusCode := 200, message := "Logged out from all devices successfully",
          db := db1, cache := cache1 }

/-- Outcome of the `authenticate` middleware: either `next()` with the
user attached to the request, or an error response (status, message,
machine-readable code). -/
inductive AuthResult
  | success (user : User)
  | failure (statusCode : Nat) (message : String) (code : String)
deriving DecidableEq, Repr

/-- The `authenticate` middleware: extract the access token, verify it as
access-class, map the distinct verification failures to their distinct
response codes, then load the user by the decoded id and reject missing
or deactivated accounts; on success attach the user. -/
def authenticate (req : Request) (db : List User) (cache : CacheState)
    (cfg : Config) (now : Nat) : AuthResult :=
  match extractToken req with
  | none => .failure 401 "Access token is required" "AUTHENTICATION_FAILED"
  | some token =>
    match verifyToken token "access" cache cfg now with
    | .error .expired =>
        .failure 401 "Access token has expired. Please refresh your token." "TOKEN_EXPIRED"
    | .error .revoked =>
        .failure 401 "Token has been revoked. Please login again." "TOKEN_REVOKED"
    | .error .invalid =>
        .failure 401 "Invalid access token" "INVALID_TOKEN"
    | .error (.wrongType expected got) =>
        .failure 401 ("Invalid token type. Expected " ++ expected ++ ", got " ++ got)
          "AUTHENTICATION_FAILED"
    | .ok decoded =>
      match findById db decoded.userId with
      | none => .failure 401 "User not found" "AUTHENTICATION_FAILED"
      | some user =>
        if !user.isActive then
          .failure 401 "Account is deactivated" "AUTHENTICATION_FAILED"
        else
          .success user

/-- Outcome of the `authorize` middleware factory: `next()` or an error
response with status and message (code `AUTHORIZATION_FAILED`). -/
inductive AuthorizeResult
  | next
  | forbidden (statusCode : Nat) (message : String)
deriving DecidableEq, Repr

/-- The `authorize(allowedRoles)` middleware: reject when no user or role
is attached to the request; reject when the attached role is not among
the allowed roles, naming them; otherwise `next()`. -/
def authorize (allowedRoles : List String) (reqUser : Option User)
    (reqUserRole : Option String) : AuthorizeResult :=
  match reqUser, reqUserRole with
  | some _, some role =>
    if !(allowedRoles.contains role) then
      .forbidden 403
        ("Access denied. Required role(s): " ++ String.intercalate " or " allowedRoles)
    else .next
  | _, _ => .forbidden 403 "Authentication required for authorization"

/-- Equality of outcomes is decidable, so concrete runs can be checked by
evaluation. -/
instance {ε α : Type} [DecidableEq ε] [DecidableEq α] :
    DecidableEq (Except ε α) := fun x y =>
  match x, y with
  | .ok a, .ok b =>
    if h : a = b then .isTrue (by rw [h]) else .isFalse (by intro hc; cases hc; exact h rfl)
  | .error a, .error b =>
    if h : a = b then .isTrue (by rw [h]) else .isFalse (by intro hc; cases hc; exact h rfl)
  | .ok _, .error _ => .isFalse (by intro hc; cases hc)
  | .error _, .ok _ => .isFalse (by intro hc; cases hc)

/-- The operations the code ever performs on a user's `refreshTokens`
list: `addRefreshToken`, `removeRefreshToken`, `removeAllRefreshTokens`. -/
inductive TokenListOp
  | add (t : Token)
  | remove (t : Token)
  | clear
deriving DecidableEq, Repr

/-- Applies one list operation to a user document. -/
def applyOp (u : User) : TokenListOp → User
  | .add t => u.addRefreshToken t
  | .remove t => u.removeRefreshToken t
  | .clear => u.removeAllRefreshTokens

/-- Applies a sequence of list operations in order. -/
def applyOps (u : User) (ops : List TokenListOp) : User :=
  ops.foldl applyOp u

/-- Whether a completed refresh attempt minted a refresh token distinct
from the one it consumed.  A refresh mints with the current timestamp as
`iat`, so this holds whenever the rotation happens at a different second
than the consumed token's original mint (and vacuously when the attempt
failed). -/
def mintedDiffers (t : Token) (x : Except AppError RefreshOk) : Bool :=
  match x with
  | .ok r => r.tokens.refreshToken != t
  | .error _ => true

/-- Two refresh requests presenting the same token, run one after the
other (the second request's reads happen after the first request's writes
committed).  Returns (first succeeded, second succeeded, final db). -/
def twoRefreshesSerialized (t : Token) (db : List User) (cache : CacheState)
    (cfg : Config) (now₁ now₂ : Nat) : Bool × Bool × List User :=
  match refreshAccessToken (some t) db cache cfg now₁ with
  | .ok r₁ =>
    match refreshAccessToken (some t) r₁.db cache cfg now₂ with
    | .ok r₂ => (true, true, r₂.db)
    | .error _ => (true, false, r₁.db)
  | .error _ =>
    match refreshAccessToken (some t) db cache cfg now₂ with
    | .ok r₂ => (false, true, r₂.db)
    | .error _ => (false, false, db)

/-- Two refresh requests presenting the same token, interleaved so that
both requests' reads (the `findById` round trip, the membership check and
the minting, which run without an intervening write) complete before
either request's `save` writes commit — the read-then-write window of the
`refreshAccessToken` controller.  Returns (first succeeded, second
succeeded, final db). -/
def twoRefreshesInterleaved (t : Token) (db : List User) (cache : CacheState)
    (cfg : Config) (now₁ now₂ : Nat) : Bool × Bool × List User :=
  match refreshReadPhase (some t) db cache cfg now₁,
        refreshReadPhase (some t) db cache cfg now₂ with
  | .ok p₁, .ok p₂ => (true, true, refreshWritePhase p₂ (refreshWritePhase p₁ db))
  | .ok p₁, .error _ => (true, false, refreshWritePhase p₁ db)
  | .error _, .ok p₂ => (false, true, refreshWritePhase p₂ db)
  | .error _, .error _ => (false, false, db)

/-- Projects the success value of an `Except`, with an explicit fallback. -/
def okOr {ε α : Type} (x : Except ε α) (dflt : α) : α :=
  match x with
  | .ok a => a
  | .error _ => dflt

/-- Concrete configuration used by the concrete instances below. -/
def cfg0 : Config :=
  { jwtSecret := "access-secret", jwtRefreshSecret := "refresh-secret",
    accessExpiry := 900, refreshExpiry := 604800 }

/-- A concrete active account before any session exists. -/
def ann0 : User :=
  { id := 1, name := "Ann", email := "ann@x.com",
    password := bcryptHash "Passw0rd", role := "user",
    refreshTokens := [], isActive := true, lastLogin := none }

/-- Refresh token minted for `ann0` at time 0. -/
def tokR0 : Token := generateRefreshToken ann0 cfg0 0

/-- Payload carried by `tokR0`. -/
def pR0 : JwtPayload :=
  { userId := 1, email := "ann@x.com", role := none, tokType := "refresh",
    iat := 0, exp := 604800, iss := ISSUER, aud := AUDIENCE }

/-- Payload of the access token minted for `ann0` at time 0. -/
def pA0 : JwtPayload :=
  { userId := 1, email := "ann@x.com", role := some "user", tokType := "access",
    iat := 0, exp := 900, iss := ISSUER, aud := AUDIENCE }

/-- `ann0` after her refresh token was stored. -/
def ann1 : User := { ann0 with refreshTokens := [tokR0] }

/-- A second concrete account, deactivated, holding a valid refresh
token. -/
def bob0 : User :=
  { id := 2, name := "Bob", email := "bob@x.com",
    password := bcryptHash "Secret12", role := "user",
    refreshTokens := [], isActive := false, lastLogin := none }

/-- Refresh token minted for `bob0` at time 0. -/
def tokRB : Token := generateRefreshToken bob0 cfg0 0

/-- Access token minted for `bob0` at time 0. -/
def tokAB : Token := generateAccessToken bob0 cfg0 0

/-- `bob0` with his refresh token stored (still deactivated). -/
def bob1 : User := { bob0 with refreshTokens := [tokRB] }

/-- Concrete store holding Ann's session. -/
def db1 : List User := [ann1]

/-- Concrete store holding Ann's session and the deactivated Bob. -/
def db2 : List User := [ann1, bob1]

/-- Result of Ann's first refresh at time 10 against `db1`. -/
def r1 : RefreshOk :=
  okOr (refreshAccessToken (some tokR0) db1 CacheState.unavailable cfg0 10)
    { tokens := { accessToken := tokR0, refreshToken := tokR0 }, db := [] }

/-- A request carrying no credentials. -/
def emptyReq : Request :=
  { authorizationBearer := none, cookieAccessToken := none,
    cookieRefreshToken := none, bodyRefreshToken := none, reqUser := none }

/-- Fallback value for projecting a logout-all result. -/
def dummyLogoutOk : LogoutOk :=
  { statusCode := 0, message := "", db := [], cache := CacheState.unavailable }

/-- Payload carried by `tokRB`. -/
def pRB : JwtPayload :=
  { userId := 2, email := "bob@x.com", role := none, tokType := "refresh",
    iat := 0, exp := 604800, iss := ISSUER, aud := AUDIENCE }

/-- Payload carried by `tokAB`. -/
def pAB : JwtPayload :=
  { userId := 2, email := "bob@x.com", role := some "user", tokType := "access",
    iat := 0, exp := 900, iss := ISSUER, aud := AUDIENCE }

/-- A request presenting Bob's access token as a bearer header. -/
def reqB : Request :=
  { authorizationBearer := some tokAB, cookieAccessToken := none,
    cookieRefreshToken := none, bodyRefreshToken := none, reqUser := none }

lemma findById_eq_id {db : List User} {uid : Nat} {u : User}
    (h : findById db uid = some u) : u.id = uid := by
  unfold findById at h
  simpa using List.find?_some h

lemma findById_saveUser_found {db : List User} {u w : User} {uid : Nat}
    (hfind : findById db uid = some w) (hid : u.id = uid) :
    findById (saveUser db u) uid = some u := by
  induction db with
  | nil => simp [findById] at hfind
  | cons hd tl ih =>
    by_cases hh : hd.id = uid
    · have hp : hd.id = u.id := hh.trans hid.symm
      have h2 : saveUser (hd :: tl) u = u :: saveUser tl u := by
        simp [saveUser, hp]
      rw [findById, h2, List.find?_cons_of_pos]
      exact beq_iff_eq.mpr hid
    · have hn : ¬ hd.id = u.id := fun hc => hh (hc.trans hid)
      have h2 : saveUser (hd :: tl) u = hd :: saveUser tl u := by
        simp [saveUser, hn]
      have h3 : findById tl uid = some w := by
        unfold findById at hfind
        rwa [List.find?_cons_of_neg] at hfind
        simp [hh]
      rw [findById, h2, List.find?_cons_of_neg]
      · exact ih h3
      · simp [hh]

lemma saveUser_getElem?_ne {db : List User} {u v : User} {i : Nat}
    (h : db[i]? = some v) (hne : v.id ≠ u.id) :
    (saveUser db u)[i]? = some v := by
  simp [saveUser, List.getElem?_map, h, hne]

lemma verifyToken_signed_ok_iff {p : JwtPayload} {s ty : String}
    {cache : CacheState} {cfg : Config} {now : Nat} {d : JwtPayload} :
    verifyToken (.signed p s) ty cache cfg now = .ok d ↔
      isTokenBlacklisted (.signed p s) cache = false ∧
      s = secretFor ty cfg ∧ now < p.exp ∧
      p.aud = AUDIENCE ∧ p.iss = ISSUER ∧ p.tokType = ty ∧ p = d := by
  unfold verifyToken jwtVerify
  by_cases hb : isTokenBlacklisted (Token.signed p s) cache <;> simp [hb]
  by_cases h1 : s = secretFor ty cfg <;> simp [h1]
  by_cases h2 : p.exp ≤ now
  · have hlt : ¬ now < p.exp := Nat.not_lt.mpr h2
    simp [h2, hlt]
  · have hlt : now < p.exp := Nat.not_le.mp h2
    simp only [h2, if_false]
    by_cases h3 : p.aud = AUDIENCE <;> simp [h3]
    by_cases h4 : p.iss = ISSUER <;> simp [h4]
    by_cases h5 : p.tokType = ty <;> simp [h5]
    simp [hlt, eq_comm]

lemma verifyToken_malformed_not_ok {raw ty : String} {cache : CacheState}
    {cfg : Config} {now : Nat} {d : JwtPayload} :
    verifyToken (.malformed raw) ty cache cfg now ≠ .ok d := by
  unfold verifyToken jwtVerify
  by_cases hb : isTokenBlacklisted (Token.malformed raw) cache <;> simp [hb]

lemma verifyToken_ok_shape {t : Token} {ty : String} {cache : CacheState}
    {cfg : Config} {now : Nat} {d : JwtPayload}
    (h : verifyToken t ty cache cfg now = .ok d) :
    t = .signed d (secretFor ty cfg) := by
  cases t with
  | malformed raw => exact absurd h verifyToken_malformed_not_ok
  | signed p s =>
    obtain ⟨-, hs, -, -, -, -, hpd⟩ := verifyToken_signed_ok_iff.mp h
    rw [hpd, hs]

lemma not_mem_after_rotate (u : User) (t newT : Token) (hne : newT ≠ t) :
    t ∉ ((u.removeRefreshToken t).addRefreshToken newT).refreshTokens := by
  simp only [User.removeRefreshToken, User.addRefreshToken]
  intro hmem
  rcases List.mem_append.mp hmem with hl | hr
  · have hf : t ∈ u.refreshTokens.filter (fun x => x ≠ t) := by
      split at hl
      · exact List.drop_subset _ _ hl
      · exact hl
    have := (List.mem_filter.mp hf).2
    simp at this
  · rw [List.mem_singleton] at hr
    exact hne hr.symm

lemma refreshReadPhase_ok_spec {t : Token} {db : List User} {cache : CacheState}
    {cfg : Config} {now : Nat} {p : PendingRefresh}
    (h : refreshReadPhase (some t) db cache cfg now = .ok p) :
    ∃ decoded, verifyToken t "refresh" cache cfg now = .ok decoded ∧
      findById db decoded.userId = some p.user ∧
      p.user.refreshTokens.contains t = true ∧
      p.oldToken = t ∧ p.pair = generateTokenPair p.user cfg now := by
  unfold refreshReadPhase at h
  split at h
  · simp at h
  case h_2 tk hv =>
    injection hv with hv
    subst hv
    split at h
    · simp at h
    case h_2 decoded hverify =>
      split at h
      · simp at h
      case h_2 user hfind =>
        split at h
        · simp at h
        · rename_i hc
          injection h with h
          subst h
          exact ⟨decoded, hverify, hfind, by simpa using hc, rfl, rfl⟩

lemma refresh_replay_core {t : Token} {db : List User} {cache : CacheState}
    {cfg : Config} {now₁ : Nat} {r : RefreshOk}
    (h₁ : refreshAccessToken (some t) db cache cfg now₁ = .ok r)
    (hrot : r.tokens.refreshToken ≠ t) (now₂ : Nat) :
    refreshAccessToken (some t) r.db cache cfg now₂ =
      match verifyToken t "refresh" cache cfg now₂ with
      | .error e => .error (.verify e)
      | .ok _ => .error (.authentication "Invalid refresh token") := by
  unfold refreshAccessToken at h₁
  cases hrp : refreshReadPhase (some t) db cache cfg now₁ with
  | error e => rw [hrp] at h₁; simp at h₁
  | ok p =>
    rw [hrp] at h₁
    injection h₁ with h₁
    subst h₁
    obtain ⟨decoded, hv₁, hf₁, hc₁, hold, hpair⟩ := refreshReadPhase_ok_spec hrp
    cases hv₂ : verifyToken t "refresh" cache cfg now₂ with
    | error e =>
      unfold refreshAccessToken refreshReadPhase
      simp [hv₂]
    | ok d =>
      have hdd : decoded = d := by
        have hs₁ := verifyToken_ok_shape hv₁
        have hs₂ := verifyToken_ok_shape hv₂
        rw [hs₂] at hs₁
        injection hs₁ with h h'
        exact h.symm
      subst hdd
      have huid : p.user.id = decoded.userId := findById_eq_id hf₁
      have hrot' : p.pair.refreshToken ≠ t := hrot
      have hfind1 :
          findById (saveUser db (p.user.removeRefreshToken p.oldToken))
            decoded.userId = some (p.user.removeRefreshToken p.oldToken) :=
        findById_saveUser_found hf₁ huid
      have hfind2 :
          findById
            (saveUser (saveUser db (p.user.removeRefreshToken p.oldToken))
              ((p.user.removeRefreshToken p.oldToken).addRefreshToken
                p.pair.refreshToken))
            decoded.userId =
          some ((p.user.removeRefreshToken p.oldToken).addRefreshToken
            p.pair.refreshToken) :=
        findById_saveUser_found hfind1 huid
      have hnotmem :
          t ∉ ((p.user.removeRefreshToken p.oldToken).addRefreshToken
            p.pair.refreshToken).refreshTokens := by
        rw [hold]
        exact not_mem_after_rotate p.user t p.pair.refreshToken hrot'
      unfold refreshAccessToken refreshReadPhase refreshWritePhase
      simp [hv₂, hfind2, hnotmem]

lemma applyOp_length_le (u : User) (op : TokenListOp)
    (h : u.refreshTokens.length ≤ 5) : (applyOp u op).refreshTokens.length ≤ 5 := by
  cases op with
  | add t =>
    simp only [applyOp, User.addRefreshToken]
    split <;> rename_i hc <;> simp [List.length_append, List.length_drop] <;> omega
  | remove t =>
    simp only [applyOp, User.removeRefreshToken]
    exact le_trans (List.length_filter_le _ _) h
  | clear => simp [applyOp, User.removeAllRefreshTokens]

lemma applyOps_length_le (u : User) (ops : List TokenListOp)
    (h : u.refreshTokens.length ≤ 5) : (applyOps u ops).refreshTokens.length ≤ 5 := by
  induction ops generalizing u with
  | nil => simpa [applyOps] using h
  | cons op ops ih =>
    simp only [applyOps, List.foldl_cons] at *
    exact ih _ (applyOp_length_le u op h)

/-- C1: refresh-token rotation makes each refresh token single-use.  If a
refresh attempt consuming token `t` succeeded (minting a pair whose
refresh token differs from `t`, which holds whenever the rotation happens
at a different second than `t`'s own mint, since the minted token's `iat`
is the rotation time), then a later refresh attempt presenting the same
token value `t` against the resulting store is rejected with the
Unauthenticated (401) error `Invalid refresh token`, even though `t` still
verifies (signature and expiry valid, not blacklisted). -/
theorem refresh_token_single_use
    (t : Token) (db : List User) (cache : CacheState) (cfg : Config)
    (now₁ now₂ : Nat) (r : RefreshOk) (d : JwtPayload)
    (h₁ : refreshAccessToken (some t) db cache cfg now₁ = .ok r)
    (hrot : r.tokens.refreshToken ≠ t)
    (h₂ : verifyToken t "refresh" cache cfg now₂ = .ok d) :
    refreshAccessToken (some t) r.db cache cfg now₂ =
      .error (.authentication "Invalid refresh token") ∧
    (AppError.authentication "Invalid refresh token").statusCode = 401 := by
  refine ⟨?_, rfl⟩
  rw [refresh_replay_core h₁ hrot now₂, h₂]

/-- Witness for C1: Ann's refresh token minted at time 0 is consumed by a
refresh at time 10; replaying it at time 20 is rejected with 401
`Invalid refresh token`. -/
theorem refresh_token_single_use_witness :
    refreshAccessToken (some tokR0) r1.db CacheState.unavailable cfg0 20 =
      .error (.authentication "Invalid refresh token") ∧
    (AppError.authentication "Invalid refresh token").statusCode = 401 :=
  refresh_token_single_use tokR0 db1 CacheState.unavailable cfg0 10 20 r1 pR0
    (by decide) (by decide) (by decide)

/-- C2: `verifyToken` checks its failure conditions in order with distinct
outcomes: a blacklisted token fails `Revoked` before any signature check
(even with a wrong signature); otherwise a malformed token or a signature,
audience or issuer mismatch fails `Invalid` while an elapsed expiry fails
`Expired` (the verification step checks signature, then expiry, then
audience/issuer); otherwise a payload whose `type` discriminator differs
from the expected class fails `WrongClass`; otherwise the decoded payload
is returned.  `verifyToken` is a pure function of the token, expected
type, cache state and clock — it has no side effects by construction. -/
theorem verify_checks_order_and_outcomes
    (p : JwtPayload) (s raw ty : String) (cache : CacheState) (cfg : Config)
    (now : Nat) :
    (isTokenBlacklisted (.signed p s) cache = true →
      verifyToken (.signed p s) ty cache cfg now = .error .revoked) ∧
    (isTokenBlacklisted (.malformed raw) cache = true →
      verifyToken (.malformed raw) ty cache cfg now = .error .revoked) ∧
    (isTokenBlacklisted (.malformed raw) cache = false →
      verifyToken (.malformed raw) ty cache cfg now = .error .invalid) ∧
    (isTokenBlacklisted (.signed p s) cache = false → s ≠ secretFor ty cfg →
      verifyToken (.signed p s) ty cache cfg now = .error .invalid) ∧
    (isTokenBlacklisted (.signed p s) cache = false → s = secretFor ty cfg →
      p.exp ≤ now →
      verifyToken (.signed p s) ty cache cfg now = .error .expired) ∧
    (isTokenBlacklisted (.signed p s) cache = false → s = secretFor ty cfg →
      now < p.exp → (p.aud ≠ AUDIENCE ∨ p.iss ≠ ISSUER) →
      verifyToken (.signed p s) ty cache cfg now = .error .invalid) ∧
    (isTokenBlacklisted (.signed p s) cache = false → s = secretFor ty cfg →
      now < p.exp → p.aud = AUDIENCE → p.iss = ISSUER → p.tokType ≠ ty →
      verifyToken (.signed p s) ty cache cfg now =
        .error (.wrongType ty p.tokType)) ∧
    (isTokenBlacklisted (.signed p s) cache = false → s = secretFor ty cfg →
      now < p.exp → p.aud = AUDIENCE → p.iss = ISSUER → p.tokType = ty →
      verifyToken (.signed p s) ty cache cfg now = .ok p) := by
  refine ⟨?_, ?_, ?_, ?_, ?_, ?_, ?_, ?_⟩
  · intro hb; unfold verifyToken; simp [hb]
  · intro hb; unfold verifyToken; simp [hb]
  · intro hb; unfold verifyToken jwtVerify; simp [hb]
  · intro hb hs; unfold verifyToken jwtVerify; simp [hb, hs]
  · intro hb hs hexp; subst hs; unfold verifyToken jwtVerify; simp [hb, hexp]
  · intro hb hs hlt haudiss
    subst hs
    unfold verifyToken jwtVerify
    rcases haudiss with haud | hiss
    · simp [hb, Nat.not_le.mpr hlt, haud]
    · by_cases haud : p.aud = AUDIENCE
      · simp [hb, Nat.not_le.mpr hlt, haud, hiss]
      · simp [hb, Nat.not_le.mpr hlt, haud]
  · intro hb hs hlt haud hiss hty
    subst hs
    unfold verifyToken jwtVerify
    simp [hb, Nat.not_le.mpr hlt, haud, hiss, hty]
  · intro hb hs hlt haud hiss hty
    subst hs
    unfold verifyToken jwtVerify
    simp [hb, Nat.not_le.mpr hlt, haud, hiss, hty]

/-- Witness for C2: each distinct outcome at a concrete input — a
blacklisted token with a wrong signature still fails `Revoked`; a
malformed token fails `Invalid`; a wrong signature fails `Invalid`; an
elapsed expiry fails `Expired`; a refresh-typed payload where access is
expected fails `WrongClass`; a clean access token verifies to its
payload. -/
theorem verify_checks_order_and_outcomes_witness :
    verifyToken (.signed pA0 "bad") "access"
      (CacheState.available [(.signed pA0 "bad", 60)]) cfg0 0 = .error .revoked ∧
    verifyToken (.malformed "junk") "access" CacheState.unavailable cfg0 0 =
      .error .invalid ∧
    verifyToken (.signed pA0 "bad") "access" CacheState.unavailable cfg0 0 =
      .error .invalid ∧
    verifyToken (.signed pA0 "access-secret") "access" CacheState.unavailable
      cfg0 1000 = .error .expired ∧
    verifyToken (.signed pR0 "access-secret") "access" CacheState.unavailable
      cfg0 0 = .error (.wrongType "access" "refresh") ∧
    verifyToken (.signed pA0 "access-secret") "access" CacheState.unavailable
      cfg0 0 = .ok pA0 :=
  ⟨(verify_checks_order_and_outcomes pA0 "bad" "junk" "access"
      (CacheState.available [(.signed pA0 "bad", 60)]) cfg0 0).1 (by decide),
   (verify_checks_order_and_outcomes pA0 "bad" "junk" "access"
      CacheState.unavailable cfg0 0).2.2.1 (by decide),
   (verify_checks_order_and_outcomes pA0 "bad" "junk" "access"
      CacheState.unavailable cfg0 0).2.2.2.1 (by decide) (by decide),
   (verify_checks_order_and_outcomes pA0 "access-secret" "junk" "access"
      CacheState.unavailable cfg0 1000).2.2.2.2.1 (by decide) (by decide)
      (by decide),
   (verify_checks_order_and_outcomes pR0 "access-secret" "junk" "access"
      CacheState.unavailable cfg0 0).2.2.2.2.2.2.1 (by decide) (by decide)
      (by decide) (by decide) (by decide) (by decide),
   (verify_checks_order_and_outcomes pA0 "access-secret" "junk" "access"
      CacheState.unavailable cfg0 0).2.2.2.2.2.2.2 (by decide) (by decide)
      (by decide) (by decide) (by decide) (by decide)⟩

/-- C3: under any sequence of the three list operations the code performs,
a `refreshTokens` list within the cap of 5 stays within the cap; and
inserting cap+1 = 6 tokens into an empty list leaves exactly the cap of 5
entries, with the oldest inserted token evicted (FIFO) and absent. -/
theorem refresh_list_cap_invariant
    (u : User) (ops : List TokenListOp)
    (a b c d e f : Token) (u' : User)
    (hu : u.refreshTokens.length ≤ 5)
    (hu' : u'.refreshTokens = [])
    (hdistinct : a ∉ [b, c, d, e, f]) :
    (applyOps u ops).refreshTokens.length ≤ 5 ∧
    (applyOps u' [.add a, .add b, .add c, .add d, .add e, .add f]).refreshTokens
      = [b, c, d, e, f] ∧
    (applyOps u'
      [.add a, .add b, .add c, .add d, .add e, .add f]).refreshTokens.length = 5 ∧
    a ∉ (applyOps u'
      [.add a, .add b, .add c, .add d, .add e, .add f]).refreshTokens := by
  have hlist :
      (applyOps u' [.add a, .add b, .add c, .add d, .add e, .add f]).refreshTokens
        = [b, c, d, e, f] := by
    simp [applyOps, applyOp, User.addRefreshToken, hu']
  refine ⟨applyOps_length_le u ops hu, hlist, ?_, ?_⟩
  · rw [hlist]; rfl
  · rw [hlist]; exact hdistinct

/-- Witness for C3: six pairwise distinct concrete tokens inserted into an
account with an empty list, plus a bound for a concrete operation
sequence mixing inserts, removals and a clear. -/
theorem refresh_list_cap_invariant_witness :
    (applyOps ann1
      [.add (.malformed "t1"), .clear, .add (.malformed "t2"),
       .remove (.malformed "t2"), .add (.malformed "t3")]).refreshTokens.length
      ≤ 5 ∧
    (applyOps ann0
      [.add (.malformed "t1"), .add (.malformed "t2"), .add (.malformed "t3"),
       .add (.malformed "t4"), .add (.malformed "t5"),
       .add (.malformed "t6")]).refreshTokens
      = [.malformed "t2", .malformed "t3", .malformed "t4", .malformed "t5",
         .malformed "t6"] ∧
    Token.malformed "t1" ∉ (applyOps ann0
      [.add (.malformed "t1"), .add (.malformed "t2"), .add (.malformed "t3"),
       .add (.malformed "t4"), .add (.malformed "t5"),
       .add (.malformed "t6")]).refreshTokens := by
  have h := refresh_list_cap_invariant ann1
    [.add (.malformed "t1"), .clear, .add (.malformed "t2"),
     .remove (.malformed "t2"), .add (.malformed "t3")]
    (.malformed "t1") (.malformed "t2") (.malformed "t3") (.malformed "t4")
    (.malformed "t5") (.malformed "t6") ann0
    (by decide) (by decide) (by decide)
  exact ⟨h.1, h.2.1, h.2.2.2⟩

/-- C4: when the Revocation Registry (Redis) is unavailable, the
is-revoked check returns "not revoked" for every token (fail-open), the
revoke operation returns failure without raising and leaves the registry
as it was, and the logout controller still answers 200
`Logout successful` — registry unavailability never surfaces as a request
failure. -/
theorem revocation_registry_fail_open
    (t : Token) (expiresIn : Nat) (req : Request) (db : List User)
    (now : Nat) :
    isTokenBlacklisted t CacheState.unavailable = false ∧
    blacklistToken t expiresIn CacheState.unavailable =
      (false, CacheState.unavailable) ∧
    (logout req db CacheState.unavailable now).statusCode = 200 ∧
    (logout req db CacheState.unavailable now).message = "Logout successful" :=
  ⟨rfl, rfl, rfl, rfl⟩

/-- Counterexample for C5: the three login failure conditions do not all
surface the same message.  Against a store holding only the deactivated
account `bob0`, logging in as Bob with his correct password answers
`Account is deactivated. Please contact support.`, while logging in with
an unknown email answers `Invalid email or password` — distinct messages,
so a caller can tell the inactive case apart. -/
theorem login_inactive_message_distinct :
    login "bob@x.com" "Secret12" [bob0] cfg0 0 =
      .error (.authentication "Account is deactivated. Please contact support.") ∧
    login "carol@x.com" "Secret12" [bob0] cfg0 0 =
      .error (.authentication "Invalid email or password") ∧
    ("Account is deactivated. Please contact support." : String) ≠
      "Invalid email or password" :=
  ⟨by decide, by decide, by decide⟩

/-- C5 (amended): login fails Unauthenticated (401) in all three cases;
the no-matching-identity and wrong-secret cases surface the identical
generic message `Invalid email or password`, but the inactive case
surfaces the distinct message
`Account is deactivated. Please contact support.`. -/
theorem login_failure_modes
    (db : List User) (email password : String) (cfg : Config) (now : Nat)
    (u : User) :
    (findByEmail db email = none →
      login email password db cfg now =
        .error (.authentication "Invalid email or password")) ∧
    (findByEmail db email = some u → u.isActive = true →
      u.comparePassword password = false →
      login email password db cfg now =
        .error (.authentication "Invalid email or password")) ∧
    (findByEmail db email = some u → u.isActive = false →
      login email password db cfg now =
        .error (.authentication "Account is deactivated. Please contact support.")) ∧
    (∀ msg : String, (AppError.authentication msg).statusCode = 401) := by
  refine ⟨?_, ?_, ?_, fun _ => rfl⟩
  · intro hf; unfold login; simp [hf]
  · intro hf hact hpw; unfold login; simp [hf, hact, hpw]
  · intro hf hact; unfold login; simp [hf, hact]

/-- Witness for C5 (amended): Ann with a wrong password and a missing
account give the identical response; deactivated Bob gives the distinct
one. -/
theorem login_failure_modes_witness :
    login "ann@x.com" "nope" db1 cfg0 0 =
      .error (.authentication "Invalid email or password") ∧
    login "carol@x.com" "x" db1 cfg0 0 =
      .error (.authentication "Invalid email or password") ∧
    login "bob@x.com" "Secret12" db2 cfg0 0 =
      .error (.authentication "Account is deactivated. Please contact support.") :=
  ⟨(login_failure_modes db1 "ann@x.com" "nope" cfg0 0 ann1).2.1 (by decide)
      (by decide) (by decide),
   (login_failure_modes db1 "carol@x.com" "x" cfg0 0 ann1).1 (by decide),
   (login_failure_modes db2 "bob@x.com" "Secret12" cfg0 0 bob1).2.2.1
      (by decide) (by decide)⟩

/-- C6: logout-all clears the invoking identity's whole refresh-token
list, so any refresh token of that identity that still verifies is
rejected on its next refresh attempt with the Unauthenticated error
`Invalid refresh token` (including never-yet-used ones), while every
stored document of a different identity is unchanged. -/
theorem logout_all_clears_and_invalidates
    (reqUser : User) (req : Request) (db : List User) (cache : CacheState)
    (now : Nat) (user : User) (r : LogoutOk)
    (t : Token) (cfg : Config) (now₂ : Nat) (d : JwtPayload)
    (i : Nat) (v : User)
    (hfind : findById db reqUser.id = some user)
    (hrun : logoutAll reqUser req db cache now = .ok r)
    (hv : verifyToken t "refresh" r.cache cfg now₂ = .ok d)
    (hd : d.userId = reqUser.id)
    (hi : db[i]? = some v) (hvne : v.id ≠ reqUser.id) :
    findById r.db reqUser.id = some user.removeAllRefreshTokens ∧
    refreshAccessToken (some t) r.db r.cache cfg now₂ =
      .error (.authentication "Invalid refresh token") ∧
    r.db[i]? = some v := by
  unfold logoutAll at hrun
  rw [hfind] at hrun
  injection hrun with hrun
  have hdb : r.db = saveUser db user.removeAllRefreshTokens := by rw [← hrun]
  have huid : user.id = reqUser.id := findById_eq_id hfind
  have hcid : (user.removeAllRefreshTokens).id = reqUser.id := huid
  have hfind2 :
      findById (saveUser db user.removeAllRefreshTokens) reqUser.id =
        some user.removeAllRefreshTokens :=
    findById_saveUser_found hfind hcid
  have hmem : t ∉ (user.removeAllRefreshTokens).refreshTokens := by
    simp [User.removeAllRefreshTokens]
  refine ⟨by rw [hdb]; exact hfind2, ?_,
    by rw [hdb]; exact saveUser_getElem?_ne hi (fun hc => hvne (hc.trans huid))⟩
  rw [hdb]
  unfold refreshAccessToken refreshReadPhase
  simp [hv, hd, hfind2, hmem]

/-- Witness for C6: Ann logs out everywhere against the two-account store;
her refresh token (never used) now fails refresh, and Bob's document is
untouched. -/
theorem logout_all_clears_and_invalidates_witness :
    findById (okOr (logoutAll ann1 emptyReq db2 CacheState.unavailable 30)
      dummyLogoutOk).db 1 = some ann1.removeAllRefreshTokens ∧
    refreshAccessToken (some tokR0)
      (okOr (logoutAll ann1 emptyReq db2 CacheState.unavailable 30)
        dummyLogoutOk).db
      (okOr (logoutAll ann1 emptyReq db2 CacheState.unavailable 30)
        dummyLogoutOk).cache cfg0 40 =
      .error (.authentication "Invalid refresh token") ∧
    (okOr (logoutAll ann1 emptyReq db2 CacheState.unavailable 30)
      dummyLogoutOk).db[1]? = some bob1 :=
  logout_all_clears_and_invalidates ann1 emptyReq db2 CacheState.unavailable 30
    ann1 (okOr (logoutAll ann1 emptyReq db2 CacheState.unavailable 30)
      dummyLogoutOk) tokR0 cfg0 40 pR0 1 bob1
    (by decide) (by decide) (by decide) (by decide) (by decide) (by decide)

/-- C7: round-trip — minting an access credential for an identity and
verifying it as access-class (while it is unexpired and not revoked)
succeeds and decodes to a payload whose subject id, email and role equal
the identity's values exactly. -/
theorem mint_access_verify_roundtrip
    (user : User) (cfg : Config) (now now₂ : Nat) (cache : CacheState)
    (hbl : isTokenBlacklisted (generateAccessToken user cfg now) cache = false)
    (hexp : now₂ < now + cfg.accessExpiry) :
    verifyToken (generateAccessToken user cfg now) "access" cache cfg now₂ =
      .ok { userId := user.id, email := user.email, role := some user.role,
            tokType := "access", iat := now, exp := now + cfg.accessExpiry,
            iss := ISSUER, aud := AUDIENCE } := by
  unfold generateAccessToken at hbl ⊢
  exact verifyToken_signed_ok_iff.mpr
    ⟨hbl, by simp [secretFor], hexp, rfl, rfl, rfl, rfl⟩

/-- Witness for C7: Ann's access token minted at time 0 verifies at time
100 and decodes to her id, email and role. -/
theorem mint_access_verify_roundtrip_witness :
    verifyToken (generateAccessToken ann0 cfg0 0) "access"
      CacheState.unavailable cfg0 100 = .ok pA0 :=
  mint_access_verify_roundtrip ann0 cfg0 0 100 CacheState.unavailable
    (by decide) (by decide)

/-- C8: the authorization gate permits exactly when the attached role is a
member of the required role set; otherwise it answers Forbidden (403)
with a message naming the required role(s); and with no identity or role
attached at all it answers Forbidden (403) rather than crashing. -/
theorem authorize_role_check
    (allowedRoles : List String) (u : User) (role : String)
    (r? : Option String) :
    (authorize allowedRoles (some u) (some role) = .next ↔
      role ∈ allowedRoles) ∧
    (role ∉ allowedRoles →
      authorize allowedRoles (some u) (some role) =
        .forbidden 403 ("Access denied. Required role(s): " ++
          String.intercalate " or " allowedRoles)) ∧
    authorize allowedRoles none r? =
      .forbidden 403 "Authentication required for authorization" ∧
    authorize allowedRoles (some u) none =
      .forbidden 403 "Authentication required for authorization" := by
  refine ⟨?_, ?_, ?_, ?_⟩
  · by_cases hm : role ∈ allowedRoles <;>
      simp [authorize, List.contains, List.elem_eq_mem, hm]
  · intro hm
    simp [authorize, List.contains, List.elem_eq_mem, hm]
  · rfl
  · rfl

/-- Witness for C8: role `user` against required set `{admin}` is
forbidden with a message naming `admin`; a bare request is forbidden; an
attached `admin` role passes. -/
theorem authorize_role_check_witness :
    authorize ["admin"] (some ann0) (some "user") =
      .forbidden 403 ("Access denied. Required role(s): " ++
        String.intercalate " or " ["admin"]) ∧
    authorize ["admin"] none none =
      .forbidden 403 "Authentication required for authorization" ∧
    authorize ["admin"] (some ann0) (some "admin") = .next :=
  ⟨(authorize_role_check ["admin"] ann0 "user" none).2.1 (by decide),
   (authorize_role_check ["admin"] ann0 "user" none).2.2.1,
   (authorize_role_check ["admin"] ann0 "admin" none).1.mpr (by decide)⟩

/-- Counterexample for C9: the refresh controller reads the document
(`findById`), checks membership, and only then writes (`save`); two
overlapping requests presenting the same token can both complete their
read-and-check before either write commits.  In that interleaving both
attempts succeed on a concrete store, so "at most one succeeds" fails:
the membership check is against the document as read, not an atomic
conditional update. -/
theorem concurrent_refresh_window_both_succeed :
    (twoRefreshesInterleaved tokR0 db1 CacheState.unavailable cfg0 10 11).1
      = true ∧
    (twoRefreshesInterleaved tokR0 db1 CacheState.unavailable cfg0 10 11).2.1
      = true :=
  ⟨by decide, by decide⟩

/-- C9 (amended): when the two refresh attempts presenting the same token
are serialized — the second attempt's read happens after the first
attempt's writes committed — the membership check rejects the second
attempt, so at most one succeeds; the interleaving where both reads
precede both writes is not covered by this guarantee.  The hypothesis
states that the first attempt, if it succeeded, minted a refresh token
distinct from the presented one (true whenever the rotation happens at a
different second than the token's original mint). -/
theorem serialized_refresh_rejects_replay
    (t : Token) (db : List User) (cache : CacheState) (cfg : Config)
    (now₁ now₂ : Nat)
    (hrot : mintedDiffers t (refreshAccessToken (some t) db cache cfg now₁)
      = true) :
    ((twoRefreshesSerialized t db cache cfg now₁ now₂).1 &&
     (twoRefreshesSerialized t db cache cfg now₁ now₂).2.1) = false := by
  unfold twoRefreshesSerialized
  cases h₁ : refreshAccessToken (some t) db cache cfg now₁ with
  | error e =>
    cases h₂ : refreshAccessToken (some t) db cache cfg now₂ <;> simp
  | ok r =>
    have hne : r.tokens.refreshToken ≠ t := by
      unfold mintedDiffers at hrot
      rw [h₁] at hrot
      simpa using hrot
    have h₂ := refresh_replay_core h₁ hne now₂
    cases hv : verifyToken t "refresh" cache cfg now₂ with
    | error e => rw [hv] at h₂; simp [h₂]
    | ok d => rw [hv] at h₂; simp [h₂]

/-- Witness for C9 (amended): Ann's token against the concrete store —
serialized execution lets at most one of the two attempts succeed. -/
theorem serialized_refresh_rejects_replay_witness :
    ((twoRefreshesSerialized tokR0 db1 CacheState.unavailable cfg0 10 20).1 &&
     (twoRefreshesSerialized tokR0 db1 CacheState.unavailable cfg0 10 20).2.1)
      = false :=
  serialized_refresh_rejects_replay tokR0 db1 CacheState.unavailable cfg0 10 20
    (by decide)

/-- C10: refresh never consults the `isActive` flag.  For an identity
whose flag is false but whose stored list contains the presented,
otherwise-valid refresh token, refresh succeeds and returns a new pair —
while the authentication gate rejects that same identity's valid access
token with 401 `Account is deactivated`. -/
theorem refresh_ignores_inactive_flag
    (t : Token) (db : List User) (cache : CacheState) (cfg : Config)
    (now : Nat) (d : JwtPayload) (user : User)
    (req : Request) (ta : Token) (d₂ : JwtPayload)
    (hv : verifyToken t "refresh" cache cfg now = .ok d)
    (hfind : findById db d.userId = some user)
    (hinactive : user.isActive = false)
    (hmem : t ∈ user.refreshTokens)
    (hex : extractToken req = some ta)
    (hva : verifyToken ta "access" cache cfg now = .ok d₂)
    (hfind2 : findById db d₂.userId = some user) :
    (∃ r, refreshAccessToken (some t) db cache cfg now = .ok r) ∧
    authenticate req db cache cfg now =
      .failure 401 "Account is deactivated" "AUTHENTICATION_FAILED" := by
  constructor
  · refine ⟨RefreshOk.mk (generateTokenPair user cfg now)
      (refreshWritePhase
        (PendingRefresh.mk user t (generateTokenPair user cfg now)) db), ?_⟩
    unfold refreshAccessToken refreshReadPhase
    simp [hv, hfind, hmem]
  · unfold authenticate
    simp [hex, hva, hfind2, hinactive]

/-- Witness for C10: deactivated Bob's refresh token still rotates
successfully while his access token is rejected by the gate. -/
theorem refresh_ignores_inactive_flag_witness :
    (refreshAccessToken (some tokRB) db2 CacheState.unavailable cfg0 5).isOk
      = true ∧
    authenticate reqB db2 CacheState.unavailable cfg0 5 =
      .failure 401 "Account is deactivated" "AUTHENTICATION_FAILED" := by
  have h := refresh_ignores_inactive_flag tokRB db2 CacheState.unavailable cfg0
    5 pRB bob1 reqB tokAB pAB (by decide) (by decide) (by decide) (by decide)
    (by decide) (by decide) (by decide)
  obtain ⟨⟨r, hr⟩, h2⟩ := h
  exact ⟨by rw [hr]; rfl, h2⟩

end CryptoSignals
